import Mathlib

/-!
Verification of `start_esp/fetch_service_config.py`.

The Python module is shallowly embedded: parsed JSON values become the
inductive type `Json`; Python dictionary operations (`d[k]`, `d.get(k, None)`,
`d[k] = v`), truthiness tests (`if not x`) and iteration become explicit Lean
functions over `Json`; a raised exception becomes an `Except`/explicit error
value of type `PyError`, where `FetchError(code, message)` raised by the
module itself is `PyError.fetchError` and uncaught interpreter exceptions
(`KeyError`, `TypeError`/`AttributeError`, `ValueError` from `json.loads`)
get their own constructors.  Network transport and `json.loads` are external
collaborators: a transport call is scripted as an optional `HttpResponse`
(`none` models the request raising), and the response carries both its raw
body text and the result of the external JSON parse on it (`none` when the
body is not well-formed JSON).
-/

set_option autoImplicit false

namespace FetchServiceConfig

/-- A parsed JSON value (the result of `json.loads`).  Objects are ordered
association lists, matching Python dict insertion order; numbers are modelled
as integers, which is adequate here because the module never computes with a
numeric field, it only passes them through. -/
inductive Json where
  | null
  | bool (b : Bool)
  | num (n : Int)
  | str (s : String)
  | arr (elems : List Json)
  | obj (fields : List (String × Json))

/-- Python exceptions that the module can raise or let escape.
`fetchError c m` is the module's own `FetchError(c, m)`; `keyError k` is an
uncaught `KeyError` from `d[k]` on a dict missing `k`; `typeError` stands for
`TypeError`/`AttributeError` from using a non-dict where a dict is required;
`valueError` is the `json.JSONDecodeError` (a `ValueError`) that `json.loads`
raises on a malformed body. -/
inductive PyError where
  | fetchError (code : Nat) (message : String)
  | keyError (key : String)
  | typeError
  | valueError
deriving DecidableEq

/-- First binding of key `k` in an association list, as Python dict lookup
(keys produced by `json.loads` are unique, so first binding is the binding). -/
def lookupField : List (String × Json) → String → Option Json
  | [], _ => none
  | (k', v) :: rest, k => if k' = k then some v else lookupField rest k

/-- Python `d[k]`: the value when `d` is a dict containing `k`, `KeyError`
when the key is missing, `TypeError` when `d` is not a dict. -/
def pyIndex : Json → String → Except PyError Json
  | .obj fs, k =>
    match lookupField fs k with
    | some v => .ok v
    | none => .error (.keyError k)
  | _, _ => .error .typeError

/-- Python `d.get(k, None)`: `null` when the key is missing; an
`AttributeError` (modelled by `typeError`) when `d` is not a dict. -/
def pyGet : Json → String → Except PyError Json
  | .obj fs, k => .ok ((lookupField fs k).getD .null)
  | _, _ => .error .typeError

/-- Pure lookup on a JSON object, used on the specification side of the
theorems: `some v` when the key is bound, `none` when absent or when the
value is not an object. -/
def jLook : Json → String → Option Json
  | .obj fs, k => lookupField fs k
  | _, _ => none

/-- Specification-side counterpart of `d.get(k, None)`. -/
def jGet (j : Json) (k : String) : Json := (jLook j k).getD .null

/-- Python truthiness of a parsed-JSON value: `None`, `False`, `0`, `""`,
`[]` and `{ }` are falsy, everything else is truthy. -/
def pyTruthy : Json → Bool
  | .null => false
  | .bool b => b
  | .num n => n != 0
  | .str s => s != ""
  | .arr xs => !xs.isEmpty
  | .obj fs => !fs.isEmpty

/-- Whether a JSON value `is None` in Python. -/
def Json.isNull : Json → Bool
  | .null => true
  | _ => false

/-- Python `v == s` for a parsed-JSON value `v` and a string literal `s`:
true exactly when `v` is the string `s` (comparison of a non-string value
with a string is `False` in Python, never an error). -/
def jsonEqStr : Json → String → Bool
  | .str t, s => t == s
  | _, _ => false

/-- Python `str(v)` for a parsed-JSON value, as used by `"{}".format(v)`.
The module only ever formats scalar values (strings, numbers, `None`) into
messages and URLs; container rendering is collapsed to a marker. -/
def pyStr : Json → String
  | .null => "None"
  | .bool true => "True"
  | .bool false => "False"
  | .num n => toString n
  | .str s => s
  | .arr _ => "<list>"
  | .obj _ => "<dict>"

/-- Python dict assignment `d[k] = v` on an association list: replace the
binding in place when the key is present (keeping its position), append it
otherwise. -/
def setKey : List (String × Json) → String → Json → List (String × Json)
  | [], k, v => [(k, v)]
  | (k', v') :: rest, k, v =>
    if k' = k then (k', v) :: rest else (k', v') :: setKey rest k v

/-! ## Config validator (`validate_service_config`) -/

/-- Sandbox hostname tested by the normalization shim (source line 230). -/
def sandboxEnv : String := "endpoints-servicecontrol.sandbox.googleapis.com"

/-- Production hostname written by the normalization shim (source line 233). -/
def prodEnv : String := "servicecontrol.googleapis.com"

/-- Result of a call to `validate_service_config`: the outcome (normal return
or raised exception) together with the state of the (in Python, in-place
mutated) service-config document after the call. -/
structure VResult where
  outcome : Except PyError Unit
  doc : Json

/-- The in-place mutation `service_config["control"]["environment"] = v`
(source lines 232-233).  At its single call site `control` was obtained by a
successful truthy `.get`, so the document is an object whose `control` field
is an object; the other branches are unreachable there and return the
document unchanged. -/
def assignControlEnv (doc : Json) (v : Json) : Json :=
  match doc with
  | .obj fs =>
    match lookupField fs "control" with
    | some (.obj cfs) => .obj (setKey fs "control" (.obj (setKey cfs "environment" v)))
    | _ => doc
  | _ => doc

/-- Embedding of `validate_service_config(service_config, expected_service_name,
expected_service_version)` (source lines 198-233).  Each `raise FetchError(2, m)`
becomes an `.error (.fetchError 2 m)` outcome with the document unchanged; the
final sandbox rewrite is the only state change. -/
def validate_service_config (service_config : Json)
    (expected_service_name expected_service_version : String) : VResult :=
  match pyGet service_config "name" with
  | .error e => ⟨.error e, service_config⟩
  | .ok service_name =>
    if !pyTruthy service_name then
      ⟨.error (.fetchError 2 "No service name in the service config"), service_config⟩
    else if !jsonEqStr service_name expected_service_name then
      ⟨.error (.fetchError 2
        ("Unexpected service name in service config: " ++ pyStr service_name)),
       service_config⟩
    else
      match pyGet service_config "id" with
      | .error e => ⟨.error e, service_config⟩
      | .ok service_version =>
        if !pyTruthy service_version then
          ⟨.error (.fetchError 2 "No service config ID in the service config"), service_config⟩
        else if !jsonEqStr service_version expected_service_version then
          ⟨.error (.fetchError 2
            ("Unexpected service config ID in service config: " ++ pyStr service_version)),
           service_config⟩
        else
          match pyGet service_config "control" with
          | .error e => ⟨.error e, service_config⟩
          | .ok control =>
            if !pyTruthy control then
              ⟨.error (.fetchError 2 "No control section in the service config"), service_config⟩
            else
              match pyGet control "environment" with
              | .error e => ⟨.error e, service_config⟩
              | .ok environment =>
                if !pyTruthy environment then
                  ⟨.error (.fetchError 2 "Missing control environment"), service_config⟩
                else if jsonEqStr environment sandboxEnv then
                  ⟨.ok (), assignControlEnv service_config (.str prodEnv)⟩
                else
                  ⟨.ok (), service_config⟩

/-! ## Rollout selector (`fetch_latest_rollout`) -/

/-- One response from the transport collaborator (`urllib3`): HTTP status
code, reason phrase, raw body text, and the result of the external
`json.loads` applied to that body (`none` when the body is not well-formed
JSON, in which case `json.loads` raises `ValueError`). -/
structure HttpResponse where
  status : Nat
  reason : String
  data : String
  json : Option Json

/-- The URL template `SERVICE_MGMT_ROLLOUTS_URL_TEMPLATE.format(service_name,
page_token)` (source lines 25-27, 133-134). -/
def rolloutsUrl (serviceName pageToken : String) : String :=
  "https://servicemanagement.googleapis.com/v1/services/" ++ serviceName ++
    "/rollouts?pageToken=" ++ pageToken

/-- Message `"Fetching rollouts failed (status code {}, reason {}, url {})"`
(source lines 143-147 and 171-174, the same template both times). -/
def rolloutsFailMsg (status : Nat) (reason url : String) : String :=
  "Fetching rollouts failed (status code " ++ toString status ++ ", reason " ++
    reason ++ ", url " ++ url ++ ")"

/-- Message `"Invalid rollouts response (url {}, data {})"` (source lines
151-153). -/
def invalidRolloutsMsg (url data : String) : String :=
  "Invalid rollouts response (url " ++ url ++ ", data " ++ data ++ ")"

/-- Python `for x in v` over a parsed-JSON value: a list iterates its
elements, a string iterates its characters (as one-character strings), a dict
iterates its keys; `None`, booleans and numbers raise `TypeError`. -/
def pyIterItems : Json → Except PyError (List Json)
  | .arr xs => .ok xs
  | .str s => .ok (s.toList.map fun c => .str (String.singleton c))
  | .obj fs => .ok (fs.map fun p => .str p.1)
  | .null => .error .typeError
  | .bool _ => .error .typeError
  | .num _ => .error .typeError

/-- The scan `for rollout in rollouts["rollouts"]` (source lines 156-161):
return the `percentages` of the first record whose `status` is non-null and
equals `"SUCCESS"`, whose `trafficPercentStrategy` is non-null, and whose
`trafficPercentStrategy["percentages"]` is non-null.  Python's short-circuit
`and` means the strategy of a record is only indexed once its status test
passed, and each `d[k]` can raise. -/
def scan_rollouts : List Json → Except PyError (Option Json)
  | [] => .ok none
  | r :: rest =>
    match pyIndex r "status" with
    | .error e => .error e
    | .ok status =>
      if status.isNull then scan_rollouts rest
      else if !jsonEqStr status "SUCCESS" then scan_rollouts rest
      else
        match pyIndex r "trafficPercentStrategy" with
        | .error e => .error e
        | .ok tps =>
          if tps.isNull then scan_rollouts rest
          else
            match pyIndex tps "percentages" with
            | .error e => .error e
            | .ok pcts =>
              if pcts.isNull then scan_rollouts rest
              else .ok (some pcts)

/-- Outcome of `fetch_latest_rollout`: a returned percentages mapping, a
raised exception, or — a pure artifact of the scripted-transport model — the
script ran out of responses while the loop wanted another page. -/
inductive LoopResult where
  | success (percentages : Json)
  | pyerror (e : PyError)
  | outOfScript

/-- The `while True` pagination loop of `fetch_latest_rollout` (source lines
131-174), over a scripted transport: the `k`-th element of `script` is what
the `k`-th `client.request` call produces (`none` models the request
raising).  Returns the loop's outcome together with the number of page
requests issued.  When the loop reaches `break` (null `nextPageToken`), the
function falls through to the final `raise FetchError(1, ...)` built from the
status, reason and URL of the iteration that broke (source lines 170-174). -/
def fetchLoop (serviceName : String) (pageToken : String) :
    List (Option HttpResponse) → LoopResult × Nat
  | [] => (.outOfScript, 0)
  | resp? :: rest =>
    let url := rolloutsUrl serviceName pageToken
    match resp? with
    | none => (.pyerror (.fetchError 1 "Failed to fetch service config"), 1)
    | some response =>
      if response.status ≠ 200 then
        (.pyerror (.fetchError 1 (rolloutsFailMsg response.status response.reason url)), 1)
      else
        match response.json with
        | none => (.pyerror .valueError, 1)
        | some rollouts =>
          match pyIndex rollouts "rollouts" with
          | .error e => (.pyerror e, 1)
          | .ok rlist =>
            if rlist.isNull then
              (.pyerror (.fetchError 1 (invalidRolloutsMsg url response.data)), 1)
            else
              match pyIterItems rlist with
              | .error e => (.pyerror e, 1)
              | .ok items =>
                match scan_rollouts items with
                | .error e => (.pyerror e, 1)
                | .ok (some pcts) => (.success pcts, 1)
                | .ok none =>
                  match pyIndex rollouts "nextPageToken" with
                  | .error e => (.pyerror e, 1)
                  | .ok tok =>
                    if tok.isNull then
                      (.pyerror (.fetchError 1
                        (rolloutsFailMsg response.status response.reason url)), 1)
                    else
                      let r := fetchLoop serviceName (pyStr tok) rest
                      (r.1, r.2 + 1)

/-- Embedding of `fetch_latest_rollout(service_name, access_token)` (source
lines 122-174).  The access token only sets request headers, which the
scripted transport already accounts for, so it does not appear. -/
def fetch_latest_rollout (serviceName : String)
    (script : List (Option HttpResponse)) : LoopResult × Nat :=
  fetchLoop serviceName "" script

/-! ## Config fetcher (`fetch_service_json`) -/

/-- Message `"Fetching service config failed (status code {}, reason {}, url {})"`
(source lines 191-192). -/
def configFailMsg (status : Nat) (reason url : String) : String :=
  "Fetching service config failed (status code " ++ toString status ++
    ", reason " ++ reason ++ ", url " ++ url ++ ")"

/-- Embedding of `fetch_service_json(service_mgmt_url, access_token)` (source
lines 176-195) over a scripted transport response.  Only the `client.request`
call sits inside the `try`; the `json.loads` on line 194 is outside it, so a
malformed body's `ValueError` escapes uncaught. -/
def fetch_service_json (serviceMgmtUrl : String) (resp? : Option HttpResponse) :
    Except PyError Json :=
  match resp? with
  | none => .error (.fetchError 1 "Failed to fetch service config")
  | some response =>
    if response.status ≠ 200 then
      .error (.fetchError 1 (configFailMsg response.status response.reason serviceMgmtUrl))
    else
      match response.json with
      | none => .error .valueError
      | some serviceConfig => .ok serviceConfig

/-! ## Specification-side notions

The following definitions transcribe the specification's words, to be
compared with the behaviour of the embedded code: the spec's "winning"
predicate on rollout records, the code's actual matching predicate, and a
well-formed rollout page. -/

/-- The specification's invariant, transcribed: a record is "winning" iff its
status equals `SUCCESS` and it carries a non-empty `TrafficPercentStrategy`
(a non-empty `percentages` mapping). -/
def specWinning (r : Json) : Bool :=
  jsonEqStr (jGet r "status") "SUCCESS" &&
    match jLook r "trafficPercentStrategy" with
    | some tps =>
      match jLook tps "percentages" with
      | some (.obj l) => !l.isEmpty
      | _ => false
    | none => false

/-- The test the code actually performs on a record (source lines 157-160):
status non-null and equal to `SUCCESS`, `trafficPercentStrategy` non-null,
and its `percentages` non-null — emptiness is never checked. -/
def recMatches (r : Json) : Bool :=
  !(jGet r "status").isNull && jsonEqStr (jGet r "status") "SUCCESS" &&
    !(jGet r "trafficPercentStrategy").isNull &&
    !(jGet (jGet r "trafficPercentStrategy") "percentages").isNull

/-- The percentages mapping the code returns for a matching record. -/
def recPercentages (r : Json) : Json :=
  jGet (jGet r "trafficPercentStrategy") "percentages"

/-- Scanning a record raises no exception: its `status` key is present, and
when the status is `SUCCESS` the record has a `trafficPercentStrategy` key
whose value, when non-null, is an object with a `percentages` key. -/
def recOk (r : Json) : Bool :=
  match jLook r "status" with
  | none => false
  | some s =>
    if s.isNull then true
    else if !jsonEqStr s "SUCCESS" then true
    else
      match jLook r "trafficPercentStrategy" with
      | none => false
      | some tps =>
        tps.isNull ||
          match jLook tps "percentages" with
          | some _ => true
          | none => false

/-- A rollout page as the specification's data model describes one: an
ordered sequence of records plus a nullable continuation token, delivered as
a 200 response whose body has the `rollouts` and `nextPageToken` fields. -/
structure RolloutPage where
  reason : String
  raw : String
  records : List Json
  nextPageToken : Json

/-- The HTTP response delivering a rollout page. -/
def pageResponse (p : RolloutPage) : HttpResponse :=
  { status := 200, reason := p.reason, data := p.raw,
    json := some (.obj [("rollouts", .arr p.records),
                        ("nextPageToken", p.nextPageToken)]) }

/-- The transport script delivering a sequence of rollout pages. -/
def pagesScript (pages : List RolloutPage) : List (Option HttpResponse) :=
  pages.map fun p => some (pageResponse p)

/-- The top-level keys of a JSON object, in order. -/
def jKeys : Json → List String
  | .obj fs => fs.map Prod.fst
  | _ => []

/-- Whether a rollout-loop outcome is a structured `FetchError` raised by the
module (as opposed to a success, an uncaught interpreter exception, or the
script running out). -/
def LoopResult.isFetchError : LoopResult → Bool
  | .pyerror (.fetchError _ _) => true
  | _ => false

/-- Whether a config-fetch outcome is a structured `FetchError` raised by the
module. -/
def exceptIsFetchError : Except PyError Json → Bool
  | .error (.fetchError _ _) => true
  | _ => false

/-- Sample record: a failed rollout. -/
def recOther : Json := .obj [("status", .str "FAILED")]

/-- Sample record: status `SUCCESS` with an empty percentages mapping —
"successful but config removed"; not winning by the specification's
definition, but matched by the code. -/
def recEmptyPct : Json :=
  .obj [("status", .str "SUCCESS"),
        ("trafficPercentStrategy", .obj [("percentages", .obj [])])]

/-- Sample record: a winning rollout routing all traffic to version `v1`. -/
def recWinning : Json :=
  .obj [("status", .str "SUCCESS"),
        ("trafficPercentStrategy", .obj [("percentages", .obj [("v1", .num 100)])])]

example :
    (validate_service_config
      (.obj [("name", .str "a"), ("id", .str "v1"),
             ("control", .obj [("environment", .str "endpoints-servicecontrol.sandbox.googleapis.com")])])
      "a" "v1").doc =
    .obj [("name", .str "a"), ("id", .str "v1"),
          ("control", .obj [("environment", .str "servicecontrol.googleapis.com")])] := rfl

example :
    (validate_service_config (.obj [("name", .str "a"), ("id", .str "v1"),
        ("control", .obj [])]) "a" "v1").outcome =
      .error (.fetchError 2 "No control section in the service config") := rfl

/-! ## Helper lemmas -/

theorem strAppendData (p a : String) : (p ++ a).data = p.data ++ a.data := by
  cases p; cases a; rfl

theorem appendNeAppend (p q a b : String) (i : Nat) (c c' : Char)
    (hp : p.data[i]? = some c) (hq : q.data[i]? = some c') (hcc : c ≠ c') :
    p ++ a ≠ q ++ b := by
  intro h
  have hd : p.data ++ a.data = q.data ++ b.data := by
    have h2 := congrArg String.data h
    rwa [strAppendData, strAppendData] at h2
  have hlp : i < p.data.length := by
    by_contra hc
    rw [List.getElem?_eq_none (by omega)] at hp
    exact Option.noConfusion hp
  have hlq : i < q.data.length := by
    by_contra hc
    rw [List.getElem?_eq_none (by omega)] at hq
    exact Option.noConfusion hq
  have h1 : (p.data ++ a.data)[i]? = some c := by
    rw [List.getElem?_append_left hlp]; exact hp
  have h2 : (q.data ++ b.data)[i]? = some c' := by
    rw [List.getElem?_append_left hlq]; exact hq
  rw [hd, h2] at h1
  exact hcc (Option.some.inj h1).symm

theorem appendNeStr (p a q : String) (i : Nat) (c c' : Char)
    (hp : p.data[i]? = some c) (hq : q.data[i]? = some c') (hcc : c ≠ c') :
    p ++ a ≠ q := by
  have h := appendNeAppend p q a "" i c c' hp hq hcc
  intro h2
  apply h
  rw [h2]
  apply String.ext
  rw [strAppendData]
  simp

theorem jsonEqStr_iff (j : Json) (s : String) : jsonEqStr j s = true ↔ j = .str s := by
  cases j <;> simp [jsonEqStr]

theorem pyGet_obj (fs : List (String × Json)) (k : String) :
    pyGet (.obj fs) k = .ok (jGet (.obj fs) k) := rfl

theorem pyGet_error_elim {j : Json} {k : String} {e : PyError}
    (h : pyGet j k = .error e) : e = .typeError ∧ ∀ fs, j ≠ .obj fs := by
  cases j <;> simp_all [pyGet]

theorem lookupField_setKey_self :
    ∀ (fs : List (String × Json)) (k : String) (v : Json),
      lookupField (setKey fs k v) k = some v
  | [], k, v => by simp [setKey, lookupField]
  | (k', v') :: rest, k, v => by
    by_cases h : k' = k <;>
      simp [setKey, lookupField, h, lookupField_setKey_self rest k v]

theorem lookupField_setKey_ne :
    ∀ (fs : List (String × Json)) (k : String) (v : Json) (k' : String), k' ≠ k →
      lookupField (setKey fs k v) k' = lookupField fs k'
  | [], k, v, k', h => by
    simp only [setKey, lookupField]
    rw [if_neg (fun hc => h hc.symm)]
  | (k'', v') :: rest, k, v, k', h => by
    by_cases h2 : k'' = k <;> by_cases h3 : k'' = k' <;>
      simp_all [setKey, lookupField, lookupField_setKey_ne rest k v k' h]

theorem keys_setKey :
    ∀ (fs : List (String × Json)) (k : String) (v : Json),
      (lookupField fs k).isSome → (setKey fs k v).map Prod.fst = fs.map Prod.fst
  | [], k, v, h => by simp [lookupField] at h
  | (k', v') :: rest, k, v, h => by
    by_cases h2 : k' = k
    · simp [setKey, h2]
    · simp only [lookupField, if_neg h2] at h
      simp [setKey, h2, keys_setKey rest k v h]

theorem setKey_ne_nil (fs : List (String × Json)) (k : String) (v : Json) :
    setKey fs k v ≠ [] := by
  cases fs with
  | nil => simp [setKey]
  | cons p rest =>
    obtain ⟨k', v'⟩ := p
    by_cases h : k' = k <;> simp [setKey, h]

/-- On an object, `validate_service_config` is the six-check ladder followed
by the sandbox rewrite (definitional unfolding used by the proofs below). -/
theorem validate_obj_def (fs : List (String × Json)) (en ev : String) :
    validate_service_config (.obj fs) en ev =
      (if !pyTruthy (jGet (.obj fs) "name") then
        ⟨.error (.fetchError 2 "No service name in the service config"), .obj fs⟩
      else if !jsonEqStr (jGet (.obj fs) "name") en then
        ⟨.error (.fetchError 2
          ("Unexpected service name in service config: " ++ pyStr (jGet (.obj fs) "name"))),
         .obj fs⟩
      else if !pyTruthy (jGet (.obj fs) "id") then
        ⟨.error (.fetchError 2 "No service config ID in the service config"), .obj fs⟩
      else if !jsonEqStr (jGet (.obj fs) "id") ev then
        ⟨.error (.fetchError 2
          ("Unexpected service config ID in service config: " ++ pyStr (jGet (.obj fs) "id"))),
         .obj fs⟩
      else if !pyTruthy (jGet (.obj fs) "control") then
        ⟨.error (.fetchError 2 "No control section in the service config"), .obj fs⟩
      else
        match pyGet (jGet (.obj fs) "control") "environment" with
        | .error e => ⟨.error e, .obj fs⟩
        | .ok environment =>
          if !pyTruthy environment then
            ⟨.error (.fetchError 2 "Missing control environment"), .obj fs⟩
          else if jsonEqStr environment sandboxEnv then
            ⟨.ok (), assignControlEnv (.obj fs) (.str prodEnv)⟩
          else
            ⟨.ok (), .obj fs⟩) := rfl

/-- On a non-object, `validate_service_config` raises at the first `.get`
(`AttributeError`), leaving the document unchanged. -/
theorem validate_not_obj (cfg : Json) (en ev : String)
    (h : ∀ fs, cfg ≠ .obj fs) :
    validate_service_config cfg en ev = ⟨.error .typeError, cfg⟩ := by
  cases cfg with
  | obj fs => exact absurd rfl (h fs)
  | null => rfl
  | bool b => rfl
  | num n => rfl
  | str s => rfl
  | arr xs => rfl

theorem jGet_setKey_ne (fs : List (String × Json)) (k : String) (v : Json)
    (k' : String) (h : k' ≠ k) :
    jGet (.obj (setKey fs k v)) k' = jGet (.obj fs) k' := by
  simp [jGet, jLook, lookupField_setKey_ne fs k v k' h]

theorem jGet_setKey_self (fs : List (String × Json)) (k : String) (v : Json) :
    jGet (.obj (setKey fs k v)) k = v := by
  simp [jGet, jLook, lookupField_setKey_self]

theorem pyTruthy_obj_setKey (fs : List (String × Json)) (k : String) (v : Json) :
    pyTruthy (.obj (setKey fs k v)) = true := by
  cases h : setKey fs k v with
  | nil => exact absurd h (setKey_ne_nil fs k v)
  | cons p l => simp [pyTruthy]

theorem jLook_of_jGet_obj {j : Json} {k : String} {cfs : List (String × Json)}
    (h : jGet j k = .obj cfs) : jLook j k = some (.obj cfs) := by
  rw [jGet] at h
  cases hl : jLook j k with
  | none => rw [hl] at h; exact absurd h (by simp)
  | some w => rw [hl] at h; simp at h; rw [h]

/-- Exhaustive description of a `validate_service_config` call on an object:
exactly one of the six checks fails (in their listed order), or the `control`
value is truthy but not a dict (`AttributeError`), or validation succeeds,
with or without the sandbox rewrite. -/
theorem validate_obj_cases (fs : List (String × Json)) (en ev : String) :
    (pyTruthy (jGet (.obj fs) "name") = false ∧
      validate_service_config (.obj fs) en ev =
        ⟨.error (.fetchError 2 "No service name in the service config"), .obj fs⟩) ∨
    (pyTruthy (jGet (.obj fs) "name") = true ∧
     jsonEqStr (jGet (.obj fs) "name") en = false ∧
      validate_service_config (.obj fs) en ev =
        ⟨.error (.fetchError 2
          ("Unexpected service name in service config: " ++ pyStr (jGet (.obj fs) "name"))),
         .obj fs⟩) ∨
    (pyTruthy (jGet (.obj fs) "name") = true ∧
     jsonEqStr (jGet (.obj fs) "name") en = true ∧
     pyTruthy (jGet (.obj fs) "id") = false ∧
      validate_service_config (.obj fs) en ev =
        ⟨.error (.fetchError 2 "No service config ID in the service config"), .obj fs⟩) ∨
    (pyTruthy (jGet (.obj fs) "name") = true ∧
     jsonEqStr (jGet (.obj fs) "name") en = true ∧
     pyTruthy (jGet (.obj fs) "id") = true ∧
     jsonEqStr (jGet (.obj fs) "id") ev = false ∧
      validate_service_config (.obj fs) en ev =
        ⟨.error (.fetchError 2
          ("Unexpected service config ID in service config: " ++ pyStr (jGet (.obj fs) "id"))),
         .obj fs⟩) ∨
    (pyTruthy (jGet (.obj fs) "name") = true ∧
     jsonEqStr (jGet (.obj fs) "name") en = true ∧
     pyTruthy (jGet (.obj fs) "id") = true ∧
     jsonEqStr (jGet (.obj fs) "id") ev = true ∧
     pyTruthy (jGet (.obj fs) "control") = false ∧
      validate_service_config (.obj fs) en ev =
        ⟨.error (.fetchError 2 "No control section in the service config"), .obj fs⟩) ∨
    (pyTruthy (jGet (.obj fs) "name") = true ∧
     jsonEqStr (jGet (.obj fs) "name") en = true ∧
     pyTruthy (jGet (.obj fs) "id") = true ∧
     jsonEqStr (jGet (.obj fs) "id") ev = true ∧
     pyTruthy (jGet (.obj fs) "control") = true ∧
     (∀ cfs, jGet (.obj fs) "control" ≠ .obj cfs) ∧
      validate_service_config (.obj fs) en ev = ⟨.error .typeError, .obj fs⟩) ∨
    (pyTruthy (jGet (.obj fs) "name") = true ∧
     jsonEqStr (jGet (.obj fs) "name") en = true ∧
     pyTruthy (jGet (.obj fs) "id") = true ∧
     jsonEqStr (jGet (.obj fs) "id") ev = true ∧
     (∃ cfs, jGet (.obj fs) "control" = .obj cfs ∧ pyTruthy (.obj cfs) = true ∧
       pyTruthy (jGet (.obj cfs) "environment") = false) ∧
      validate_service_config (.obj fs) en ev =
        ⟨.error (.fetchError 2 "Missing control environment"), .obj fs⟩) ∨
    (pyTruthy (jGet (.obj fs) "name") = true ∧
     jsonEqStr (jGet (.obj fs) "name") en = true ∧
     pyTruthy (jGet (.obj fs) "id") = true ∧
     jsonEqStr (jGet (.obj fs) "id") ev = true ∧
     (∃ cfs, jGet (.obj fs) "control" = .obj cfs ∧ pyTruthy (.obj cfs) = true ∧
       pyTruthy (jGet (.obj cfs) "environment") = true ∧
       jsonEqStr (jGet (.obj cfs) "environment") sandboxEnv = true) ∧
      validate_service_config (.obj fs) en ev =
        ⟨.ok (), assignControlEnv (.obj fs) (.str prodEnv)⟩) ∨
    (pyTruthy (jGet (.obj fs) "name") = true ∧
     jsonEqStr (jGet (.obj fs) "name") en = true ∧
     pyTruthy (jGet (.obj fs) "id") = true ∧
     jsonEqStr (jGet (.obj fs) "id") ev = true ∧
     (∃ cfs, jGet (.obj fs) "control" = .obj cfs ∧ pyTruthy (.obj cfs) = true ∧
       pyTruthy (jGet (.obj cfs) "environment") = true ∧
       jsonEqStr (jGet (.obj cfs) "environment") sandboxEnv = false) ∧
      validate_service_config (.obj fs) en ev = ⟨.ok (), .obj fs⟩) := by
  by_cases h1 : pyTruthy (jGet (.obj fs) "name")
  case neg =>
    simp only [Bool.not_eq_true] at h1
    exact Or.inl ⟨h1, by rw [validate_obj_def]; simp [h1]⟩
  by_cases h2 : jsonEqStr (jGet (.obj fs) "name") en
  case neg =>
    simp only [Bool.not_eq_true] at h2
    exact Or.inr (Or.inl ⟨h1, h2, by rw [validate_obj_def]; simp [h1, h2]⟩)
  by_cases h3 : pyTruthy (jGet (.obj fs) "id")
  case neg =>
    simp only [Bool.not_eq_true] at h3
    exact Or.inr (Or.inr (Or.inl ⟨h1, h2, h3, by rw [validate_obj_def]; simp [h1, h2, h3]⟩))
  by_cases h4 : jsonEqStr (jGet (.obj fs) "id") ev
  case neg =>
    simp only [Bool.not_eq_true] at h4
    exact Or.inr (Or.inr (Or.inr (Or.inl ⟨h1, h2, h3, h4,
      by rw [validate_obj_def]; simp [h1, h2, h3, h4]⟩)))
  by_cases h5 : pyTruthy (jGet (.obj fs) "control")
  case neg =>
    simp only [Bool.not_eq_true] at h5
    exact Or.inr (Or.inr (Or.inr (Or.inr (Or.inl ⟨h1, h2, h3, h4, h5,
      by rw [validate_obj_def]; simp [h1, h2, h3, h4, h5]⟩))))
  cases hj : jGet (.obj fs) "control" with
  | null => rw [hj] at h5; exact absurd h5 (by simp [pyTruthy])
  | bool b =>
    rw [hj] at h5
    refine Or.inr (Or.inr (Or.inr (Or.inr (Or.inr (Or.inl
      ⟨h1, h2, h3, h4, h5, fun cfs => by simp, ?_⟩)))))
    rw [validate_obj_def]; simp [h1, h2, h3, h4, h5, hj, pyGet]
  | num n =>
    rw [hj] at h5
    refine Or.inr (Or.inr (Or.inr (Or.inr (Or.inr (Or.inl
      ⟨h1, h2, h3, h4, h5, fun cfs => by simp, ?_⟩)))))
    rw [validate_obj_def]; simp [h1, h2, h3, h4, h5, hj, pyGet]
  | str s =>
    rw [hj] at h5
    refine Or.inr (Or.inr (Or.inr (Or.inr (Or.inr (Or.inl
      ⟨h1, h2, h3, h4, h5, fun cfs => by simp, ?_⟩)))))
    rw [validate_obj_def]; simp [h1, h2, h3, h4, h5, hj, pyGet]
  | arr xs =>
    rw [hj] at h5
    refine Or.inr (Or.inr (Or.inr (Or.inr (Or.inr (Or.inl
      ⟨h1, h2, h3, h4, h5, fun cfs => by simp, ?_⟩)))))
    rw [validate_obj_def]; simp [h1, h2, h3, h4, h5, hj, pyGet]
  | obj cfs =>
    rw [hj] at h5
    by_cases h6 : pyTruthy (jGet (.obj cfs) "environment")
    case neg =>
      simp only [Bool.not_eq_true] at h6
      refine Or.inr (Or.inr (Or.inr (Or.inr (Or.inr (Or.inr (Or.inl
        ⟨h1, h2, h3, h4, ⟨cfs, rfl, h5, h6⟩, ?_⟩))))))
      rw [validate_obj_def]; simp [h1, h2, h3, h4, h5, hj, pyGet_obj, h6]
    by_cases h7 : jsonEqStr (jGet (.obj cfs) "environment") sandboxEnv
    · refine Or.inr (Or.inr (Or.inr (Or.inr (Or.inr (Or.inr (Or.inr (Or.inl
        ⟨h1, h2, h3, h4, ⟨cfs, rfl, h5, h6, h7⟩, ?_⟩)))))))
      rw [validate_obj_def]; simp [h1, h2, h3, h4, h5, hj, pyGet_obj, h6, h7]
    · simp only [Bool.not_eq_true] at h7
      refine Or.inr (Or.inr (Or.inr (Or.inr (Or.inr (Or.inr (Or.inr (Or.inr
        ⟨h1, h2, h3, h4, ⟨cfs, rfl, h5, h6, h7⟩, ?_⟩)))))))
      rw [validate_obj_def]; simp [h1, h2, h3, h4, h5, hj, pyGet_obj, h6, h7]

/-! ## Claim C3 -/

/-- C3 (amended): on a config object, the validator performs the identity and
structure checks in the listed order, every failure it raises itself carrying
code 2; it fails with the "no control section" reason exactly when the four
name/id checks pass and the `control` value is absent, null or otherwise
falsy (Python truthiness, so an empty control object also takes this reason),
and it fails with the "missing control environment" reason exactly when the
name/id checks pass, `control` is a truthy object, and `control.environment`
is absent, null or otherwise falsy (e.g. the empty string). -/
theorem validate_control_checks (fs : List (String × Json)) (en ev : String) :
    ((validate_service_config (.obj fs) en ev).outcome
        = .error (.fetchError 2 "No control section in the service config") ↔
      (pyTruthy (jGet (.obj fs) "name") = true ∧
       jsonEqStr (jGet (.obj fs) "name") en = true ∧
       pyTruthy (jGet (.obj fs) "id") = true ∧
       jsonEqStr (jGet (.obj fs) "id") ev = true ∧
       pyTruthy (jGet (.obj fs) "control") = false)) ∧
    ((validate_service_config (.obj fs) en ev).outcome
        = .error (.fetchError 2 "Missing control environment") ↔
      (pyTruthy (jGet (.obj fs) "name") = true ∧
       jsonEqStr (jGet (.obj fs) "name") en = true ∧
       pyTruthy (jGet (.obj fs) "id") = true ∧
       jsonEqStr (jGet (.obj fs) "id") ev = true ∧
       ∃ cfs, jLook (.obj fs) "control" = some (.obj cfs) ∧
         pyTruthy (.obj cfs) = true ∧
         pyTruthy (jGet (.obj cfs) "environment") = false)) ∧
    (∀ c m, (validate_service_config (.obj fs) en ev).outcome
        = .error (.fetchError c m) → c = 2) := by
  refine ⟨⟨?_, ?_⟩, ⟨?_, ?_⟩, ?_⟩
  · intro h
    rcases validate_obj_cases fs en ev with
      ⟨hc1, he⟩ | ⟨hc1, hc2, he⟩ | ⟨hc1, hc2, hc3, he⟩ | ⟨hc1, hc2, hc3, hc4, he⟩ |
      ⟨hc1, hc2, hc3, hc4, hc5, he⟩ | ⟨hc1, hc2, hc3, hc4, hc5, hno, he⟩ |
      ⟨hc1, hc2, hc3, hc4, hex, he⟩ | ⟨hc1, hc2, hc3, hc4, hex, he⟩ |
      ⟨hc1, hc2, hc3, hc4, hex, he⟩ <;> rw [he] at h <;> simp at h
    · exact absurd h (appendNeStr "Unexpected service name in service config: "
        (pyStr (jGet (.obj fs) "name")) "No control section in the service config"
        0 'U' 'N' rfl rfl (by decide))
    · exact absurd h (appendNeStr "Unexpected service config ID in service config: "
        (pyStr (jGet (.obj fs) "id")) "No control section in the service config"
        0 'U' 'N' rfl rfl (by decide))
    · exact ⟨hc1, hc2, hc3, hc4, hc5⟩
  · rintro ⟨g1, g2, g3, g4, g5⟩
    rcases validate_obj_cases fs en ev with
      ⟨hc1, he⟩ | ⟨hc1, hc2, he⟩ | ⟨hc1, hc2, hc3, he⟩ | ⟨hc1, hc2, hc3, hc4, he⟩ |
      ⟨hc1, hc2, hc3, hc4, hc5, he⟩ | ⟨hc1, hc2, hc3, hc4, hc5, hno, he⟩ |
      ⟨hc1, hc2, hc3, hc4, ⟨cfs, hj, hct, henv⟩, he⟩ |
      ⟨hc1, hc2, hc3, hc4, ⟨cfs, hj, hct, henv, hsb⟩, he⟩ |
      ⟨hc1, hc2, hc3, hc4, ⟨cfs, hj, hct, henv, hsb⟩, he⟩ <;>
      simp_all
  · intro h
    rcases validate_obj_cases fs en ev with
      ⟨hc1, he⟩ | ⟨hc1, hc2, he⟩ | ⟨hc1, hc2, hc3, he⟩ | ⟨hc1, hc2, hc3, hc4, he⟩ |
      ⟨hc1, hc2, hc3, hc4, hc5, he⟩ | ⟨hc1, hc2, hc3, hc4, hc5, hno, he⟩ |
      ⟨hc1, hc2, hc3, hc4, ⟨cfs, hj, hct, henv⟩, he⟩ |
      ⟨hc1, hc2, hc3, hc4, hex, he⟩ | ⟨hc1, hc2, hc3, hc4, hex, he⟩ <;>
        rw [he] at h <;> simp at h
    · exact absurd h (appendNeStr "Unexpected service name in service config: "
        (pyStr (jGet (.obj fs) "name")) "Missing control environment"
        0 'U' 'M' rfl rfl (by decide))
    · exact absurd h (appendNeStr "Unexpected service config ID in service config: "
        (pyStr (jGet (.obj fs) "id")) "Missing control environment"
        0 'U' 'M' rfl rfl (by decide))
    · exact ⟨hc1, hc2, hc3, hc4, cfs, jLook_of_jGet_obj hj, hct, henv⟩
  · rintro ⟨g1, g2, g3, g4, cfs, hlook, gct, genv⟩
    have hj : jGet (.obj fs) "control" = .obj cfs := by simp [jGet, hlook]
    rcases validate_obj_cases fs en ev with
      ⟨hc1, he⟩ | ⟨hc1, hc2, he⟩ | ⟨hc1, hc2, hc3, he⟩ | ⟨hc1, hc2, hc3, hc4, he⟩ |
      ⟨hc1, hc2, hc3, hc4, hc5, he⟩ | ⟨hc1, hc2, hc3, hc4, hc5, hno, he⟩ |
      ⟨hc1, hc2, hc3, hc4, ⟨cfs', hj', hct, henv⟩, he⟩ |
      ⟨hc1, hc2, hc3, hc4, ⟨cfs', hj', hct, henv, hsb⟩, he⟩ |
      ⟨hc1, hc2, hc3, hc4, ⟨cfs', hj', hct, henv, hsb⟩, he⟩
    · exact absurd g1 (by simp [hc1])
    · exact absurd g2 (by simp [hc2])
    · exact absurd g3 (by simp [hc3])
    · exact absurd g4 (by simp [hc4])
    · rw [hj] at hc5; exact absurd gct (by simp [hc5])
    · exact absurd hj (hno cfs)
    · rw [he]
    · have hcc : cfs' = cfs := Json.obj.inj (hj'.symm.trans hj)
      rw [hcc] at henv
      exact absurd henv (by simp [genv])
    · have hcc : cfs' = cfs := Json.obj.inj (hj'.symm.trans hj)
      rw [hcc] at henv
      exact absurd henv (by simp [genv])
  · intro c m h
    rcases validate_obj_cases fs en ev with
      ⟨hc1, he⟩ | ⟨hc1, hc2, he⟩ | ⟨hc1, hc2, hc3, he⟩ | ⟨hc1, hc2, hc3, hc4, he⟩ |
      ⟨hc1, hc2, hc3, hc4, hc5, he⟩ | ⟨hc1, hc2, hc3, hc4, hc5, hno, he⟩ |
      ⟨hc1, hc2, hc3, hc4, hex, he⟩ | ⟨hc1, hc2, hc3, hc4, hex, he⟩ |
      ⟨hc1, hc2, hc3, hc4, hex, he⟩ <;> rw [he] at h <;> simp at h <;> omega

/-- C3 counterexample: on `{"name":"a","id":"v1","control":{ }}` the control
section is present and non-null, yet the validator fails with the "no control
section" reason (because an empty dict is falsy in Python), not with the
"missing control environment" reason the claim requires for this input. -/
theorem validate_control_checks_cx :
    (validate_service_config
        (.obj [("name", .str "a"), ("id", .str "v1"), ("control", .obj [])])
        "a" "v1").outcome
      = .error (.fetchError 2 "No control section in the service config") ∧
    jLook (.obj [("name", .str "a"), ("id", .str "v1"), ("control", .obj [])])
        "control" = some (.obj []) ∧
    (Json.obj []).isNull = false :=
  ⟨rfl, rfl, rfl⟩

/-- Witness for C3: a config whose control section holds some key but no
`environment` draws the "missing control environment" reason. -/
theorem validate_control_checks_witness :
    (validate_service_config
        (.obj [("name", .str "a"), ("id", .str "v1"),
               ("control", .obj [("x", .null)])]) "a" "v1").outcome
      = .error (.fetchError 2 "Missing control environment") :=
  (validate_control_checks
      [("name", .str "a"), ("id", .str "v1"), ("control", .obj [("x", .null)])]
      "a" "v1").2.1.mpr
    ⟨rfl, rfl, rfl, rfl, [("x", .null)], rfl, rfl, rfl⟩

/-! ## Claim C4 -/

/-- C4: on the config `{"name":"a","id":"v1","control":{"environment":
<sandbox host>}}` with the matching expectations, validation succeeds and
the returned document's `control.environment` is the production hostname;
and on every config on which validation succeeds whose `control.environment`
is not the sandbox hostname, the document (in particular the environment
value) passes through unchanged. -/
theorem validate_sandbox_normalize :
    ((validate_service_config
        (.obj [("name", .str "a"), ("id", .str "v1"),
               ("control", .obj [("environment", .str sandboxEnv)])])
        "a" "v1").outcome = .ok () ∧
     jGet (jGet (validate_service_config
        (.obj [("name", .str "a"), ("id", .str "v1"),
               ("control", .obj [("environment", .str sandboxEnv)])])
        "a" "v1").doc "control") "environment" = .str prodEnv) ∧
    (∀ (cfg : Json) (en ev : String),
      (validate_service_config cfg en ev).outcome = .ok () →
      jGet (jGet cfg "control") "environment" ≠ .str sandboxEnv →
      (validate_service_config cfg en ev).doc = cfg) := by
  refine ⟨⟨rfl, rfl⟩, ?_⟩
  intro cfg en ev hok hne
  cases cfg with
  | null =>
    rw [validate_not_obj _ en ev (fun fs h => Json.noConfusion h)] at hok
    exact absurd hok (by simp)
  | bool b =>
    rw [validate_not_obj _ en ev (fun fs h => Json.noConfusion h)] at hok
    exact absurd hok (by simp)
  | num n =>
    rw [validate_not_obj _ en ev (fun fs h => Json.noConfusion h)] at hok
    exact absurd hok (by simp)
  | str s =>
    rw [validate_not_obj _ en ev (fun fs h => Json.noConfusion h)] at hok
    exact absurd hok (by simp)
  | arr xs =>
    rw [validate_not_obj _ en ev (fun fs h => Json.noConfusion h)] at hok
    exact absurd hok (by simp)
  | obj fs =>
    rcases validate_obj_cases fs en ev with
      ⟨hc1, he⟩ | ⟨hc1, hc2, he⟩ | ⟨hc1, hc2, hc3, he⟩ | ⟨hc1, hc2, hc3, hc4, he⟩ |
      ⟨hc1, hc2, hc3, hc4, hc5, he⟩ | ⟨hc1, hc2, hc3, hc4, hc5, hno, he⟩ |
      ⟨hc1, hc2, hc3, hc4, ⟨cfs, hj, hct, henv⟩, he⟩ |
      ⟨hc1, hc2, hc3, hc4, ⟨cfs, hj, hct, henv, hsb⟩, he⟩ |
      ⟨hc1, hc2, hc3, hc4, ⟨cfs, hj, hct, henv, hsb⟩, he⟩ <;>
      try (rw [he] at hok; simp at hok)
    · rw [hj] at hne
      exact absurd ((jsonEqStr_iff _ _).mp hsb) hne
    · rw [he]

/-- Witness for C4: a valid config with a non-sandbox environment is returned
verbatim. -/
theorem validate_sandbox_normalize_witness :
    (validate_service_config
        (.obj [("name", .str "a"), ("id", .str "v1"),
               ("control", .obj [("environment", .str "e1")])]) "a" "v1").doc
      = .obj [("name", .str "a"), ("id", .str "v1"),
              ("control", .obj [("environment", .str "e1")])] :=
  validate_sandbox_normalize.2
    (.obj [("name", .str "a"), ("id", .str "v1"),
           ("control", .obj [("environment", .str "e1")])]) "a" "v1" rfl
    (by intro h; simp [jGet, jLook, lookupField, sandboxEnv] at h)

/-! ## Claim C9 -/

/-- C9: the validator is idempotent — when it succeeds on a document, running
it again on the returned document with the same expectations succeeds and
returns that document unchanged (the sandbox rewrite cannot re-trigger,
since the rewritten environment no longer equals the sandbox hostname). -/
theorem validate_idempotent (cfg : Json) (en ev : String)
    (hok : (validate_service_config cfg en ev).outcome = .ok ()) :
    validate_service_config ((validate_service_config cfg en ev).doc) en ev
      = ⟨.ok (), (validate_service_config cfg en ev).doc⟩ := by
  cases cfg with
  | null =>
    rw [validate_not_obj _ en ev (fun fs h => Json.noConfusion h)] at hok
    exact absurd hok (by simp)
  | bool b =>
    rw [validate_not_obj _ en ev (fun fs h => Json.noConfusion h)] at hok
    exact absurd hok (by simp)
  | num n =>
    rw [validate_not_obj _ en ev (fun fs h => Json.noConfusion h)] at hok
    exact absurd hok (by simp)
  | str s =>
    rw [validate_not_obj _ en ev (fun fs h => Json.noConfusion h)] at hok
    exact absurd hok (by simp)
  | arr xs =>
    rw [validate_not_obj _ en ev (fun fs h => Json.noConfusion h)] at hok
    exact absurd hok (by simp)
  | obj fs =>
    rcases validate_obj_cases fs en ev with
      ⟨hc1, he⟩ | ⟨hc1, hc2, he⟩ | ⟨hc1, hc2, hc3, he⟩ | ⟨hc1, hc2, hc3, hc4, he⟩ |
      ⟨hc1, hc2, hc3, hc4, hc5, he⟩ | ⟨hc1, hc2, hc3, hc4, hc5, hno, he⟩ |
      ⟨hc1, hc2, hc3, hc4, ⟨cfs, hj, hct, henv⟩, he⟩ |
      ⟨hc1, hc2, hc3, hc4, ⟨cfs, hj, hct, henv, hsb⟩, he⟩ |
      ⟨hc1, hc2, hc3, hc4, ⟨cfs, hj, hct, henv, hsb⟩, he⟩ <;>
      try (rw [he] at hok; simp at hok)
    · -- sandbox rewrite happened; the rewritten document revalidates as-is
      have hctl : lookupField fs "control" = some (.obj cfs) := jLook_of_jGet_obj hj
      have hassign : assignControlEnv (.obj fs) (.str prodEnv)
          = .obj (setKey fs "control" (.obj (setKey cfs "environment" (.str prodEnv)))) := by
        simp [assignControlEnv, hctl]
      rw [he]
      show validate_service_config (assignControlEnv (.obj fs) (.str prodEnv)) en ev
        = ⟨.ok (), assignControlEnv (.obj fs) (.str prodEnv)⟩
      rw [hassign]
      have e1 : jGet (.obj (setKey fs "control"
            (.obj (setKey cfs "environment" (.str prodEnv))))) "name"
          = jGet (.obj fs) "name" := jGet_setKey_ne _ _ _ _ (by decide)
      have e2 : jGet (.obj (setKey fs "control"
            (.obj (setKey cfs "environment" (.str prodEnv))))) "id"
          = jGet (.obj fs) "id" := jGet_setKey_ne _ _ _ _ (by decide)
      have e3 : jGet (.obj (setKey fs "control"
            (.obj (setKey cfs "environment" (.str prodEnv))))) "control"
          = .obj (setKey cfs "environment" (.str prodEnv)) := jGet_setKey_self _ _ _
      have e4 : jGet (.obj (setKey cfs "environment" (.str prodEnv))) "environment"
          = .str prodEnv := jGet_setKey_self _ _ _
      have e5 : pyTruthy (.str prodEnv) = true := by decide
      have e6 : jsonEqStr (.str prodEnv) sandboxEnv = false := by decide
      rw [validate_obj_def]
      simp [e1, e2, e3, e4, e5, e6, hc1, hc2, hc3, hc4, pyTruthy_obj_setKey, pyGet_obj]
    · rw [he]
      exact he

/-- Witness for C9: idempotence at the concrete sandbox-rewrite config. -/
theorem validate_idempotent_witness :
    validate_service_config
        ((validate_service_config
          (.obj [("name", .str "a"), ("id", .str "v1"),
                 ("control", .obj [("environment", .str sandboxEnv)])])
          "a" "v1").doc) "a" "v1"
      = ⟨.ok (),
         (validate_service_config
          (.obj [("name", .str "a"), ("id", .str "v1"),
                 ("control", .obj [("environment", .str sandboxEnv)])])
          "a" "v1").doc⟩ :=
  validate_idempotent
    (.obj [("name", .str "a"), ("id", .str "v1"),
           ("control", .obj [("environment", .str sandboxEnv)])]) "a" "v1" rfl

/-! ## Claim C10 -/

theorem frame_of_doc_eq (cfg : Json) (en ev : String)
    (h : (validate_service_config cfg en ev).doc = cfg) :
    (∀ e, (validate_service_config cfg en ev).outcome = .error e →
      (validate_service_config cfg en ev).doc = cfg) ∧
    jKeys (validate_service_config cfg en ev).doc = jKeys cfg ∧
    (∀ k, k ≠ "control" →
      jLook (validate_service_config cfg en ev).doc k = jLook cfg k) ∧
    (∀ c c', jLook cfg "control" = some c →
      jLook (validate_service_config cfg en ev).doc "control" = some c' →
      jKeys c' = jKeys c ∧ ∀ k, k ≠ "environment" → jLook c' k = jLook c k) := by
  refine ⟨fun e _ => h, by rw [h], fun k _ => by rw [h], fun c c' hc hc' => ?_⟩
  rw [h, hc] at hc'
  obtain rfl : c = c' := Option.some.inj hc'
  exact ⟨rfl, fun k _ => rfl⟩

theorem validate_frame_sandbox_case (fs : List (String × Json)) (en ev : String)
    (cfs : List (String × Json))
    (hj : jGet (.obj fs) "control" = .obj cfs)
    (henv : pyTruthy (jGet (.obj cfs) "environment") = true)
    (he : validate_service_config (.obj fs) en ev
      = ⟨.ok (), assignControlEnv (.obj fs) (.str prodEnv)⟩) :
    (∀ e, (validate_service_config (.obj fs) en ev).outcome = .error e →
      (validate_service_config (.obj fs) en ev).doc = .obj fs) ∧
    jKeys (validate_service_config (.obj fs) en ev).doc = jKeys (.obj fs) ∧
    (∀ k, k ≠ "control" →
      jLook (validate_service_config (.obj fs) en ev).doc k = jLook (.obj fs) k) ∧
    (∀ c c', jLook (.obj fs) "control" = some c →
      jLook (validate_service_config (.obj fs) en ev).doc "control" = some c' →
      jKeys c' = jKeys c ∧ ∀ k, k ≠ "environment" → jLook c' k = jLook c k) := by
  have hctl : lookupField fs "control" = some (.obj cfs) := jLook_of_jGet_obj hj
  obtain ⟨env, henvl⟩ : ∃ env, lookupField cfs "environment" = some env := by
    cases hl : lookupField cfs "environment" with
    | some env => exact ⟨env, rfl⟩
    | none => simp [jGet, jLook, hl, pyTruthy] at henv
  have hd : (validate_service_config (.obj fs) en ev).doc
      = .obj (setKey fs "control" (.obj (setKey cfs "environment" (.str prodEnv)))) := by
    rw [he]
    show assignControlEnv (.obj fs) (.str prodEnv) = _
    simp [assignControlEnv, hctl]
  refine ⟨?_, ?_, ?_, ?_⟩
  · intro e h
    rw [he] at h
    simp at h
  · rw [hd]
    show (setKey fs "control" _).map Prod.fst = fs.map Prod.fst
    exact keys_setKey fs "control" _ (by rw [hctl]; rfl)
  · intro k hk
    rw [hd]
    show lookupField (setKey fs "control" _) k = lookupField fs k
    exact lookupField_setKey_ne fs "control" _ k hk
  · intro c c' hc hc'
    rw [hd] at hc'
    replace hc' : lookupField (setKey fs "control"
        (.obj (setKey cfs "environment" (.str prodEnv)))) "control" = some c' := hc'
    rw [lookupField_setKey_self] at hc'
    replace hc : lookupField fs "control" = some c := hc
    rw [hctl] at hc
    obtain rfl : Json.obj cfs = c := Option.some.inj hc
    obtain rfl : Json.obj (setKey cfs "environment" (.str prodEnv)) = c' :=
      Option.some.inj hc'
    constructor
    · show (setKey cfs "environment" _).map Prod.fst = cfs.map Prod.fst
      exact keys_setKey cfs "environment" _ (by rw [henvl]; rfl)
    · intro k hk
      show lookupField (setKey cfs "environment" _) k = lookupField cfs k
      exact lookupField_setKey_ne cfs "environment" _ k hk

/-- C10: the validator changes nothing but (possibly) `control.environment`:
on failure the document is untouched; on any outcome the top-level key list
(order included) is preserved, every top-level field other than `control` is
unchanged, and within the control section every field other than
`environment` is unchanged and the key list is preserved. -/
theorem validate_frame (cfg : Json) (en ev : String) :
    (∀ e, (validate_service_config cfg en ev).outcome = .error e →
      (validate_service_config cfg en ev).doc = cfg) ∧
    jKeys (validate_service_config cfg en ev).doc = jKeys cfg ∧
    (∀ k, k ≠ "control" →
      jLook (validate_service_config cfg en ev).doc k = jLook cfg k) ∧
    (∀ c c', jLook cfg "control" = some c →
      jLook (validate_service_config cfg en ev).doc "control" = some c' →
      jKeys c' = jKeys c ∧ ∀ k, k ≠ "environment" → jLook c' k = jLook c k) := by
  cases cfg with
  | null =>
    exact frame_of_doc_eq _ en ev
      (by rw [validate_not_obj _ en ev (fun fs h => Json.noConfusion h)])
  | bool b =>
    exact frame_of_doc_eq _ en ev
      (by rw [validate_not_obj _ en ev (fun fs h => Json.noConfusion h)])
  | num n =>
    exact frame_of_doc_eq _ en ev
      (by rw [validate_not_obj _ en ev (fun fs h => Json.noConfusion h)])
  | str s =>
    exact frame_of_doc_eq _ en ev
      (by rw [validate_not_obj _ en ev (fun fs h => Json.noConfusion h)])
  | arr xs =>
    exact frame_of_doc_eq _ en ev
      (by rw [validate_not_obj _ en ev (fun fs h => Json.noConfusion h)])
  | obj fs =>
    rcases validate_obj_cases fs en ev with
      ⟨hc1, he⟩ | ⟨hc1, hc2, he⟩ | ⟨hc1, hc2, hc3, he⟩ | ⟨hc1, hc2, hc3, hc4, he⟩ |
      ⟨hc1, hc2, hc3, hc4, hc5, he⟩ | ⟨hc1, hc2, hc3, hc4, hc5, hno, he⟩ |
      ⟨hc1, hc2, hc3, hc4, ⟨cfs, hj, hct, henv⟩, he⟩ |
      ⟨hc1, hc2, hc3, hc4, ⟨cfs, hj, hct, henv, hsb⟩, he⟩ |
      ⟨hc1, hc2, hc3, hc4, ⟨cfs, hj, hct, henv, hsb⟩, he⟩
    · exact frame_of_doc_eq _ en ev (by rw [he])
    · exact frame_of_doc_eq _ en ev (by rw [he])
    · exact frame_of_doc_eq _ en ev (by rw [he])
    · exact frame_of_doc_eq _ en ev (by rw [he])
    · exact frame_of_doc_eq _ en ev (by rw [he])
    · exact frame_of_doc_eq _ en ev (by rw [he])
    · exact frame_of_doc_eq _ en ev (by rw [he])
    · exact validate_frame_sandbox_case fs en ev cfs hj henv he
    · exact frame_of_doc_eq _ en ev (by rw [he])

/-- Witness for C10: untouched document on a failing config; preserved extra
field and key list on a config that takes the sandbox rewrite. -/
theorem validate_frame_witness :
    (validate_service_config (.obj [("name", .str "a")]) "a" "v1").doc
      = .obj [("name", .str "a")] ∧
    jLook (validate_service_config
        (.obj [("name", .str "a"), ("id", .str "v1"),
               ("control", .obj [("environment", .str sandboxEnv)]),
               ("extra", .num 7)]) "a" "v1").doc "extra"
      = jLook (.obj [("name", .str "a"), ("id", .str "v1"),
               ("control", .obj [("environment", .str sandboxEnv)]),
               ("extra", .num 7)]) "extra" ∧
    jKeys (validate_service_config
        (.obj [("name", .str "a"), ("id", .str "v1"),
               ("control", .obj [("environment", .str sandboxEnv)]),
               ("extra", .num 7)]) "a" "v1").doc
      = jKeys (.obj [("name", .str "a"), ("id", .str "v1"),
               ("control", .obj [("environment", .str sandboxEnv)]),
               ("extra", .num 7)]) :=
  ⟨(validate_frame (.obj [("name", .str "a")]) "a" "v1").1
      (.fetchError 2 "No service config ID in the service config") rfl,
   (validate_frame (.obj [("name", .str "a"), ("id", .str "v1"),
               ("control", .obj [("environment", .str sandboxEnv)]),
               ("extra", .num 7)]) "a" "v1").2.2.1 "extra" (by decide),
   (validate_frame (.obj [("name", .str "a"), ("id", .str "v1"),
               ("control", .obj [("environment", .str sandboxEnv)]),
               ("extra", .num 7)]) "a" "v1").2.1⟩

/-! ## Rollout selector lemmas -/

theorem pyIndex_of_jLook {j : Json} {k : String} {v : Json}
    (h : jLook j k = some v) : pyIndex j k = .ok v := by
  cases j with
  | obj fs => rw [jLook] at h; simp [pyIndex, h]
  | null => exact absurd h (by simp [jLook])
  | bool b => exact absurd h (by simp [jLook])
  | num n => exact absurd h (by simp [jLook])
  | str s => exact absurd h (by simp [jLook])
  | arr xs => exact absurd h (by simp [jLook])

theorem jGet_of_jLook {j : Json} {k : String} {v : Json}
    (h : jLook j k = some v) : jGet j k = v := by
  rw [jGet, h]; rfl

/-- On a list of well-behaved records the scan raises nothing and returns the
percentages of the first record matching the code's predicate. -/
theorem scan_rollouts_eq :
    ∀ (items : List Json), items.all recOk = true →
      scan_rollouts items = .ok ((items.find? recMatches).map recPercentages)
  | [], _ => by simp [scan_rollouts]
  | r :: rest, h => by
    simp only [List.all_cons, Bool.and_eq_true] at h
    obtain ⟨hr, hrest⟩ := h
    have ih := scan_rollouts_eq rest hrest
    cases hs : jLook r "status" with
    | none => rw [recOk, hs] at hr; exact absurd hr (by simp)
    | some s =>
      have hpi : pyIndex r "status" = .ok s := pyIndex_of_jLook hs
      have hgs : jGet r "status" = s := jGet_of_jLook hs
      rw [recOk, hs] at hr
      replace hr : (if s.isNull = true then true
          else if (!jsonEqStr s "SUCCESS") = true then true
          else
            match jLook r "trafficPercentStrategy" with
            | none => false
            | some tps =>
              tps.isNull ||
                match jLook tps "percentages" with
                | some _ => true
                | none => false) = true := hr
      by_cases hnull : s.isNull
      · have hm : recMatches r = false := by simp [recMatches, hgs, hnull]
        have hfind : List.find? recMatches (r :: rest) = List.find? recMatches rest :=
          List.find?_cons_of_neg _ (by simp [hm])
        rw [hfind]
        simp only [scan_rollouts, hpi]
        rw [if_pos hnull, ih]
      · by_cases hsc : jsonEqStr s "SUCCESS"
        · rw [if_neg hnull, if_neg (by simp [hsc])] at hr
          cases ht : jLook r "trafficPercentStrategy" with
          | none => rw [ht] at hr; exact absurd hr (by simp)
          | some tps =>
            have hpt : pyIndex r "trafficPercentStrategy" = .ok tps := pyIndex_of_jLook ht
            have hgt : jGet r "trafficPercentStrategy" = tps := jGet_of_jLook ht
            rw [ht] at hr
            by_cases htn : tps.isNull
            · have hm : recMatches r = false := by simp [recMatches, hgt, htn]
              have hfind : List.find? recMatches (r :: rest) = List.find? recMatches rest :=
                List.find?_cons_of_neg _ (by simp [hm])
              rw [hfind]
              simp only [scan_rollouts, hpi, hpt]
              rw [if_neg hnull, if_neg (by simp [hsc]), if_pos htn, ih]
            · rw [Bool.or_eq_true] at hr
              rcases hr with hr | hr
              · exact absurd hr (by simp [htn])
              · cases hp : jLook tps "percentages" with
                | none => rw [hp] at hr; exact absurd hr (by simp)
                | some pcts =>
                  have hpp : pyIndex tps "percentages" = .ok pcts := pyIndex_of_jLook hp
                  have hgp : jGet tps "percentages" = pcts := jGet_of_jLook hp
                  by_cases hpn : pcts.isNull
                  · have hm : recMatches r = false := by
                      simp [recMatches, hgt, hgp, hpn]
                    have hfind : List.find? recMatches (r :: rest)
                        = List.find? recMatches rest :=
                      List.find?_cons_of_neg _ (by simp [hm])
                    rw [hfind]
                    simp only [scan_rollouts, hpi, hpt, hpp]
                    rw [if_neg hnull, if_neg (by simp [hsc]), if_neg htn, if_pos hpn, ih]
                  · have hm : recMatches r = true := by
                      simp [recMatches, hgs, hgt, hgp, hnull, hsc, htn, hpn]
                    have hfind : List.find? recMatches (r :: rest) = some r :=
                      List.find?_cons_of_pos _ (by simp [hm])
                    rw [hfind]
                    simp only [scan_rollouts, hpi, hpt, hpp]
                    rw [if_neg hnull, if_neg (by simp [hsc]), if_neg htn, if_neg hpn]
                    simp [recPercentages, hgt, hgp]
        · have hm : recMatches r = false := by simp [recMatches, hgs, hsc]
          have hfind : List.find? recMatches (r :: rest) = List.find? recMatches rest :=
            List.find?_cons_of_neg _ (by simp [hm])
          rw [hfind]
          simp only [scan_rollouts, hpi]
          rw [if_neg hnull, if_pos (by simp [hsc]), ih]

/-- One loop iteration on a well-formed rollout page: scan the records, then
stop, fail, or continue with the page's token according to the scan result
and the token's nullness. -/
theorem fetchLoop_cons_page (name tok : String) (p : RolloutPage)
    (rest : List (Option HttpResponse)) :
    fetchLoop name tok (some (pageResponse p) :: rest) =
      match scan_rollouts p.records with
      | .error e => (.pyerror e, 1)
      | .ok (some pcts) => (.success pcts, 1)
      | .ok none =>
        if p.nextPageToken.isNull then
          (.pyerror (.fetchError 1
            (rolloutsFailMsg 200 p.reason (rolloutsUrl name tok))), 1)
        else
          ((fetchLoop name (pyStr p.nextPageToken) rest).1,
           (fetchLoop name (pyStr p.nextPageToken) rest).2 + 1) := by
  cases hscan : scan_rollouts p.records with
  | error e =>
    simp [fetchLoop, pageResponse, pyIndex, lookupField, pyIterItems,
      Json.isNull, hscan]
  | ok o =>
    cases o with
    | none =>
      by_cases ht : p.nextPageToken.isNull <;>
        simp [fetchLoop, pageResponse, pyIndex, lookupField, pyIterItems,
          Json.isNull, hscan, ht]
    | some pcts =>
      simp [fetchLoop, pageResponse, pyIndex, lookupField, pyIterItems,
        Json.isNull, hscan]

/-- Scanning pages with no matching record and non-null tokens, the loop
reaches the first page holding a match and returns its first match,
issuing one request per page consumed. -/
theorem fetchLoop_match (name : String) (pre : List RolloutPage)
    (p : RolloutPage) (post : List (Option HttpResponse)) (m : Json)
    (hpre : ∀ q ∈ pre, q.records.all recOk = true ∧
      q.records.find? recMatches = none ∧ q.nextPageToken.isNull = false)
    (hp : p.records.all recOk = true)
    (hm : p.records.find? recMatches = some m) :
    ∀ tok, fetchLoop name tok (pagesScript pre ++ some (pageResponse p) :: post)
      = (.success (recPercentages m), pre.length + 1) := by
  induction pre with
  | nil =>
    intro tok
    rw [pagesScript]
    simp only [List.map_nil, List.nil_append]
    rw [fetchLoop_cons_page, scan_rollouts_eq p.records hp, hm]
    simp
  | cons q pre ih =>
    intro tok
    obtain ⟨hq, hqnone, hqtok⟩ := hpre q (by simp)
    rw [pagesScript]
    simp only [List.map_cons, List.cons_append]
    rw [fetchLoop_cons_page, scan_rollouts_eq q.records hq, hqnone]
    simp only [hqtok, Bool.false_eq_true, if_false]
    rw [show (List.map (fun p => some (pageResponse p)) pre : List (Option HttpResponse))
        = pagesScript pre from rfl]
    rw [ih (fun r hr => hpre r (by simp [hr])) (pyStr q.nextPageToken)]
    simp [Nat.add_comm, Nat.add_assoc]

/-- Scanning pages with no matching record, non-null tokens in between and a
null token on the last page, the loop exhausts every page and raises the
final `FetchError` built from the last response's status, reason and URL. -/
theorem fetchLoop_nomatch (name : String) (mid : List RolloutPage)
    (last : RolloutPage)
    (hmid : ∀ q ∈ mid, q.records.all recOk = true ∧
      q.records.find? recMatches = none ∧ q.nextPageToken.isNull = false)
    (hl : last.records.all recOk = true)
    (hln : last.records.find? recMatches = none)
    (hlt : last.nextPageToken.isNull = true) :
    ∀ tok, fetchLoop name tok (pagesScript (mid ++ [last]))
      = (.pyerror (.fetchError 1 (rolloutsFailMsg 200 last.reason
          (rolloutsUrl name (mid.foldl (fun _ q => pyStr q.nextPageToken) tok)))),
         mid.length + 1) := by
  induction mid with
  | nil =>
    intro tok
    rw [pagesScript]
    simp only [List.nil_append, List.map_cons, List.map_nil]
    rw [fetchLoop_cons_page, scan_rollouts_eq last.records hl, hln]
    simp [hlt]
  | cons q mid ih =>
    intro tok
    obtain ⟨hq, hqnone, hqtok⟩ := hmid q (by simp)
    rw [pagesScript]
    simp only [List.cons_append, List.map_cons]
    rw [fetchLoop_cons_page, scan_rollouts_eq q.records hq, hqnone]
    simp only [hqtok, Bool.false_eq_true, if_false]
    rw [show (List.map (fun p => some (pageResponse p)) (mid ++ [last])
          : List (Option HttpResponse)) = pagesScript (mid ++ [last]) from rfl]
    rw [ih (fun r hr => hmid r (by simp [hr])) (pyStr q.nextPageToken)]
    simp [Nat.add_comm, Nat.add_assoc]

/-! ## Claim C1 -/

/-- C1 (amended): for every sequence of rollout pages, if some record matches
the code's test — status `SUCCESS` with a non-null `trafficPercentStrategy`
whose `percentages` is non-null (emptiness is not checked) — then the
selector returns the percentages of the first such record in scan order
(records top-to-bottom within a page, pages in fetch order), never consulting
later pages; a record with status `SUCCESS` but a null strategy or null
percentages is not a match. -/
theorem fetch_first_match (name : String) (pre : List RolloutPage)
    (p : RolloutPage) (post : List (Option HttpResponse)) (m : Json)
    (hpre : ∀ q ∈ pre, q.records.all recOk = true ∧
      q.records.find? recMatches = none ∧ q.nextPageToken.isNull = false)
    (hp : p.records.all recOk = true)
    (hm : p.records.find? recMatches = some m) :
    fetch_latest_rollout name (pagesScript pre ++ some (pageResponse p) :: post)
      = (.success (recPercentages m), pre.length + 1) :=
  fetchLoop_match name pre p post m hpre hp hm ""

/-- C1 counterexample: with a first record of status `SUCCESS` carrying an
empty (hence, per the claim, non-winning) percentages mapping and a second,
genuinely winning record, the selector returns the empty strategy of the
non-winning record instead of the first winning record's strategy. -/
theorem fetch_first_match_cx :
    specWinning recEmptyPct = false ∧
    specWinning recWinning = true ∧
    fetch_latest_rollout "svc"
        (pagesScript [⟨"OK", "r1", [recEmptyPct], .str "t2"⟩,
                      ⟨"OK", "r2", [recWinning], .null⟩])
      = (.success (.obj []), 1) ∧
    Json.obj [] ≠ recPercentages recWinning := by
  refine ⟨rfl, rfl, rfl, ?_⟩
  simp [recPercentages, recWinning, jGet, jLook, lookupField]

/-- Witness for C1: a one-page prefix without a match followed by the page
holding the first matching record. -/
theorem fetch_first_match_witness :
    fetch_latest_rollout "svc"
        (pagesScript [⟨"OK", "r1", [recOther], .str "t2"⟩] ++
          some (pageResponse ⟨"OK", "r2", [recWinning], .null⟩) :: [])
      = (.success (.obj [("v1", .num 100)]), 2) :=
  fetch_first_match "svc" [⟨"OK", "r1", [recOther], .str "t2"⟩]
    ⟨"OK", "r2", [recWinning], .null⟩ [] recWinning
    (by intro q hq; simp at hq; subst hq; exact ⟨rfl, rfl, rfl⟩) rfl rfl

/-! ## Claim C2 -/

/-- C2 (amended): for every sequence of rollout pages in which no record
matches the code's test (status `SUCCESS` with non-null strategy and
non-null percentages) and whose last page has a null continuation token, the
selector terminates after exactly one request per page, returns no success,
and raises a fetch-class (code 1) error whose message reuses the last seen
HTTP status (200), reason and URL. -/
theorem fetch_no_active_rollout (name : String) (mid : List RolloutPage)
    (last : RolloutPage)
    (hmid : ∀ q ∈ mid, q.records.all recOk = true ∧
      q.records.find? recMatches = none ∧ q.nextPageToken.isNull = false)
    (hl : last.records.all recOk = true)
    (hln : last.records.find? recMatches = none)
    (hlt : last.nextPageToken.isNull = true) :
    fetch_latest_rollout name (pagesScript (mid ++ [last]))
      = (.pyerror (.fetchError 1 (rolloutsFailMsg 200 last.reason
          (rolloutsUrl name (mid.foldl (fun _ q => pyStr q.nextPageToken) "")))),
         mid.length + 1) :=
  fetchLoop_nomatch name mid last hmid hl hln hlt ""

/-- C2 counterexample: on a single last page whose only record has status
`SUCCESS` with an empty percentages mapping — so no record is winning in the
specification's sense — the selector returns the empty strategy as success
instead of failing with a fetch-class error. -/
theorem fetch_no_active_rollout_cx :
    specWinning recEmptyPct = false ∧
    fetch_latest_rollout "svc" (pagesScript [⟨"OK", "r1", [recEmptyPct], .null⟩])
      = (.success (.obj []), 1) ∧
    (LoopResult.success (.obj [])).isFetchError = false :=
  ⟨rfl, rfl, rfl⟩

/-- Witness for C2: two pages without matching records, the second with a
null token; the error reuses the second page's reason and the URL built from
the first page's token. -/
theorem fetch_no_active_rollout_witness :
    fetch_latest_rollout "svc"
        (pagesScript ([⟨"OK", "r1", [recOther], .str "t2"⟩] ++ [⟨"R2", "r2", [], .null⟩]))
      = (.pyerror (.fetchError 1
          (rolloutsFailMsg 200 "R2" (rolloutsUrl "svc" "t2"))), 2) :=
  fetch_no_active_rollout "svc" [⟨"OK", "r1", [recOther], .str "t2"⟩]
    ⟨"R2", "r2", [], .null⟩
    (by intro q hq; simp at hq; subst hq; exact ⟨rfl, rfl, rfl⟩) rfl rfl rfl

/-! ## Claim C5 -/

/-- C5 (amended): when a page yields no matching record, a continuation token
that is present and null makes the loop stop and raise the final fetch-class
error without requesting any further page (exactly one request is issued);
but an absent token key is treated differently: the loop crashes with an
uncaught `KeyError` (again issuing no further request) instead of stopping
cleanly. -/
theorem fetch_token_null_vs_absent :
    (∀ (name tok : String) (p : RolloutPage) (rest : List (Option HttpResponse)),
      p.records.all recOk = true → p.records.find? recMatches = none →
      p.nextPageToken = .null →
      fetchLoop name tok (some (pageResponse p) :: rest)
        = (.pyerror (.fetchError 1
            (rolloutsFailMsg 200 p.reason (rolloutsUrl name tok))), 1)) ∧
    (∀ (name tok reason raw : String) (records : List Json)
        (rest : List (Option HttpResponse)),
      records.all recOk = true → records.find? recMatches = none →
      fetchLoop name tok
          (some ⟨200, reason, raw, some (.obj [("rollouts", .arr records)])⟩ :: rest)
        = (.pyerror (.keyError "nextPageToken"), 1)) := by
  constructor
  · intro name tok p rest hp hn ht
    rw [fetchLoop_cons_page, scan_rollouts_eq p.records hp, hn]
    simp [ht, Json.isNull]
  · intro name tok reason raw records rest hr hn
    simp [fetchLoop, pyIndex, lookupField, pyIterItems, Json.isNull,
      scan_rollouts_eq records hr, hn]

/-- C5 counterexample: the same empty page is fetched once with an explicit
null token and once with the token absent; the first stops with the final
fetch-class error, the second crashes with an uncaught `KeyError`, so absence
is not treated the same as null. -/
theorem fetch_token_null_vs_absent_cx :
    fetch_latest_rollout "svc" [some ⟨200, "OK", "r",
        some (.obj [("rollouts", .arr []), ("nextPageToken", .null)])⟩]
      = (.pyerror (.fetchError 1
          (rolloutsFailMsg 200 "OK" (rolloutsUrl "svc" ""))), 1) ∧
    fetch_latest_rollout "svc" [some ⟨200, "OK", "r",
        some (.obj [("rollouts", .arr [])])⟩]
      = (.pyerror (.keyError "nextPageToken"), 1) ∧
    (LoopResult.pyerror (.keyError "nextPageToken")).isFetchError = false :=
  ⟨rfl, rfl, rfl⟩

/-- Witness for C5: both branches of the amended claim at a concrete page. -/
theorem fetch_token_null_vs_absent_witness :
    fetchLoop "svc" "" [some (pageResponse ⟨"OK", "r", [], .null⟩)]
      = (.pyerror (.fetchError 1
          (rolloutsFailMsg 200 "OK" (rolloutsUrl "svc" ""))), 1) ∧
    fetchLoop "svc" "" [some ⟨200, "OK", "r", some (.obj [("rollouts", .arr [])])⟩]
      = (.pyerror (.keyError "nextPageToken"), 1) :=
  ⟨fetch_token_null_vs_absent.1 "svc" "" ⟨"OK", "r", [], .null⟩ [] rfl rfl rfl,
   fetch_token_null_vs_absent.2 "svc" "" "OK" "r" [] [] rfl rfl⟩

/-! ## Claim C6 -/

/-- C6 (amended): on a 200 page response whose parsed body binds the rollout
list to null, the selector raises the `InvalidResponse`-style fetch-class
(code 1) error carrying the URL (and raw body); but when the rollout key is
absent altogether it crashes with an uncaught `KeyError` instead. -/
theorem fetch_rollouts_null_vs_absent :
    (∀ (name tok reason raw : String) (fs : List (String × Json))
        (rest : List (Option HttpResponse)),
      lookupField fs "rollouts" = some .null →
      fetchLoop name tok (some ⟨200, reason, raw, some (.obj fs)⟩ :: rest)
        = (.pyerror (.fetchError 1
            (invalidRolloutsMsg (rolloutsUrl name tok) raw)), 1)) ∧
    (∀ (name tok reason raw : String) (fs : List (String × Json))
        (rest : List (Option HttpResponse)),
      lookupField fs "rollouts" = none →
      fetchLoop name tok (some ⟨200, reason, raw, some (.obj fs)⟩ :: rest)
        = (.pyerror (.keyError "rollouts"), 1)) := by
  constructor
  · intro name tok reason raw fs rest h
    simp [fetchLoop, pyIndex, h, Json.isNull]
  · intro name tok reason raw fs rest h
    simp [fetchLoop, pyIndex, h]

/-- C6 counterexample: a 200 response whose body lacks the `rollouts` key
crashes with an uncaught `KeyError` — not the structured code-1 error with
the URL that the claim requires for an absent rollout list. -/
theorem fetch_rollouts_null_vs_absent_cx :
    fetch_latest_rollout "svc"
        [some ⟨200, "OK", "r", some (.obj [("nextPageToken", .null)])⟩]
      = (.pyerror (.keyError "rollouts"), 1) ∧
    (LoopResult.pyerror (.keyError "rollouts")).isFetchError = false :=
  ⟨rfl, rfl⟩

/-- Witness for C6: both branches of the amended claim at concrete bodies. -/
theorem fetch_rollouts_null_vs_absent_witness :
    fetchLoop "svc" "" [some ⟨200, "OK", "raw0",
        some (.obj [("rollouts", .null), ("nextPageToken", .null)])⟩]
      = (.pyerror (.fetchError 1
          (invalidRolloutsMsg (rolloutsUrl "svc" "") "raw0")), 1) ∧
    fetchLoop "svc" "" [some ⟨200, "OK", "raw1", some (.obj [])⟩]
      = (.pyerror (.keyError "rollouts"), 1) :=
  ⟨fetch_rollouts_null_vs_absent.1 "svc" "" "OK" "raw0"
      [("rollouts", .null), ("nextPageToken", .null)] [] rfl,
   fetch_rollouts_null_vs_absent.2 "svc" "" "OK" "raw1" [] [] rfl⟩

/-! ## Claim C7 -/

/-- C7 (amended): on a 200 response whose body is not well-formed JSON,
`fetch_service_json` neither succeeds nor raises a structured `FetchError`:
the `json.loads` call sits outside the `try`, so the JSON decode error (a
`ValueError`) escapes uncaught. -/
theorem fetch_service_json_malformed (url reason raw : String) :
    fetch_service_json url (some ⟨200, reason, raw, none⟩) = .error .valueError := rfl

/-- C7 counterexample: a 200 response with a malformed body makes
`fetch_service_json` escape with the uncaught decode error, which is not an
`InvalidResponse`-class structured `FetchError`. -/
theorem fetch_service_json_malformed_cx :
    fetch_service_json "u" (some ⟨200, "OK", "not json", none⟩)
      = .error .valueError ∧
    exceptIsFetchError
      (fetch_service_json "u" (some ⟨200, "OK", "not json", none⟩)) = false :=
  ⟨rfl, rfl⟩

/-! ## Claim C8 -/

/-- C8 (amended): the selector requests exactly the pages needed, where
"needed" is determined by the code's matching predicate (non-null, rather
than non-empty, percentages): if the first matching record lies on page N,
exactly N requests are issued and later pages are never requested; if no
record across K pages matches (intermediate tokens non-null, last token
null), exactly K requests are issued; and a page with an empty record list
but a string continuation token makes the loop continue with that token. -/
theorem fetch_request_counts :
    (∀ (name : String) (pre : List RolloutPage) (p : RolloutPage)
        (post : List (Option HttpResponse)) (m : Json),
      (∀ q ∈ pre, q.records.all recOk = true ∧
        q.records.find? recMatches = none ∧ q.nextPageToken.isNull = false) →
      p.records.all recOk = true → p.records.find? recMatches = some m →
      (fetch_latest_rollout name
          (pagesScript pre ++ some (pageResponse p) :: post)).2 = pre.length + 1) ∧
    (∀ (name : String) (mid : List RolloutPage) (last : RolloutPage),
      (∀ q ∈ mid, q.records.all recOk = true ∧
        q.records.find? recMatches = none ∧ q.nextPageToken.isNull = false) →
      last.records.all recOk = true → last.records.find? recMatches = none →
      last.nextPageToken.isNull = true →
      (fetch_latest_rollout name (pagesScript (mid ++ [last]))).2
        = mid.length + 1) ∧
    (∀ (name tok reason raw t : String) (rest : List (Option HttpResponse)),
      fetchLoop name tok (some (pageResponse ⟨reason, raw, [], .str t⟩) :: rest)
        = ((fetchLoop name t rest).1, (fetchLoop name t rest).2 + 1)) := by
  refine ⟨?_, ?_, ?_⟩
  · intro name pre p post m hpre hp hm
    rw [fetch_latest_rollout, fetchLoop_match name pre p post m hpre hp hm ""]
  · intro name mid last hmid hl hln hlt
    rw [fetch_latest_rollout, fetchLoop_nomatch name mid last hmid hl hln hlt ""]
  · intro name tok reason raw t rest
    rw [fetchLoop_cons_page]
    simp [scan_rollouts, Json.isNull, pyStr]

/-- C8 counterexample: the first record winning in the specification's sense
lies on page 2, so the claim demands exactly 2 requests, but the code stops
after 1 request (the empty-percentages record on page 1 already matches). -/
theorem fetch_request_counts_cx :
    specWinning recEmptyPct = false ∧
    specWinning recWinning = true ∧
    fetch_latest_rollout "svc"
        (pagesScript [⟨"OK", "r1", [recEmptyPct], .str "t2"⟩,
                      ⟨"OK", "r2", [recWinning], .null⟩])
      = (.success (.obj []), 1) ∧
    (1 : Nat) ≠ 2 :=
  ⟨rfl, rfl, rfl, by decide⟩

/-- Witness for C8: a match on page 2 costs exactly 2 requests. -/
theorem fetch_request_counts_witness :
    (fetch_latest_rollout "svc"
        (pagesScript [⟨"OK", "r1", [recOther], .str "t2"⟩] ++
          some (pageResponse ⟨"OK", "r2", [recWinning], .null⟩) :: [])).2 = 2 :=
  fetch_request_counts.1 "svc" [⟨"OK", "r1", [recOther], .str "t2"⟩]
    ⟨"OK", "r2", [recWinning], .null⟩ [] recWinning
    (by intro q hq; simp at hq; subst hq; exact ⟨rfl, rfl, rfl⟩) rfl rfl

end FetchServiceConfig
